import Mathlib

/-!
Verification of `src/graph_client.py`, a minimal Microsoft Graph client:
a retry decorator `with_retry`, an OAuth2 client-credentials token fetch
with in-memory caching, and three operations (create event, patch event,
send mail).  The Python code is shallowly embedded: JSON values are an
inductive type, exceptions become `Except`, the mutable client state and
the HTTP world (responses, request trace, sleeps) are threaded explicitly.
-/

/-- JSON values, as produced by `r.json()` and passed as request bodies. -/
inductive Json where
  | null : Json
  | bool : Bool → Json
  | num : Int → Json
  | str : String → Json
  | arr : List Json → Json
  | obj : List (String × Json) → Json

/-- Python truthiness of a JSON value (`if x:`): `None`, `False`, `0`,
`""`, `[]` and `{}` are falsy, everything else truthy. -/
def Json.truthy : Json → Bool
  | .null => false
  | .bool b => b
  | .num n => n != 0
  | .str s => s != ""
  | .arr l => !l.isEmpty
  | .obj l => !l.isEmpty

/-- Association-list lookup for JSON object fields (`d[key]`). -/
def lookupField : List (String × Json) → String → Option Json
  | [], _ => none
  | (k, v) :: rest, key => if k = key then some v else lookupField rest key

/-- `j[key]` on a JSON value: a field of an object, `none` (an exception in
Python, `KeyError`/`TypeError`) otherwise. -/
def Json.lookup : Json → String → Option Json
  | .obj fields, key => lookupField fields key
  | _, _ => none

/-!
## The retry decorator (`with_retry`, `src/graph_client.py` lines 23-35)

```python
def with_retry(max_attempts=3, base_delay_s=1.0):
    def decorator(fn):
        def wrapper(*args, **kwargs):
            last_exc = None
            for attempt in range(max_attempts):
                try:
                    return fn(*args, **kwargs)
                except Exception as e:
                    last_exc = e
                    time.sleep(base_delay_s * (2 ** attempt))
            raise last_exc
        return wrapper
    return decorator
```

The wrapped call is modelled by its per-attempt outcome `op : Nat → Except E A`
(`op k` is what attempt `k`, 0-indexed, does).  The result records the value
returned or the exception re-raised (`Except.error none` is the degenerate
`raise None` that Python would perform when `max_attempts = 0`), together
with the list of `time.sleep` durations in seconds, in order.
-/

/-- One step of the `for attempt in range(max_attempts)` loop: remaining
iterations, current `attempt` index, current `last_exc`, sleeps so far. -/
def retryLoop {E A : Type} (op : Nat → Except E A) (base : ℚ) :
    Nat → Nat → Option E → List ℚ → Except (Option E) A × List ℚ
  | 0, _, last, sleeps => (Except.error last, sleeps)
  | fuel + 1, attempt, _, sleeps =>
    match op attempt with
    | Except.ok a => (Except.ok a, sleeps)
    | Except.error e =>
        retryLoop op base fuel (attempt + 1) (some e) (sleeps ++ [base * 2 ^ attempt])

/-- `with_retry(max_attempts, base_delay_s)` applied to an operation with
per-attempt outcomes `op`. -/
def with_retry {E A : Type} (maxAttempts : Nat) (base : ℚ) (op : Nat → Except E A) :
    Except (Option E) A × List ℚ :=
  retryLoop op base maxAttempts 0 none []

/-- Claim C1: for N in {1,2,3}, an operation that raises on its first N-1
attempts and succeeds on attempt N returns the success result of attempt N,
and the total time slept is `sum(base_delay_s * 2^k for k in 0..N-2)`
seconds (with base 1.0: 0s, 1s, 3s for N = 1, 2, 3). -/
theorem with_retry_success_total_sleep {E A : Type} (N : Nat) (op : Nat → Except E A)
    (a : A) (hN : 1 ≤ N ∧ N ≤ 3)
    (hfail : ∀ k, k + 1 < N → ∃ e, op k = Except.error e)
    (hsucc : op (N - 1) = Except.ok a) :
    (with_retry 3 1 op).1 = Except.ok a ∧
    (with_retry 3 1 op).2.sum = ((List.range (N - 1)).map (fun k => (1 : ℚ) * 2 ^ k)).sum := by
  obtain ⟨h1, h3⟩ := hN
  interval_cases N
  · simp only [Nat.sub_self] at hsucc
    simp [with_retry, retryLoop, hsucc]
  · obtain ⟨e0, he0⟩ := hfail 0 (by omega)
    simp only [show 2 - 1 = 1 from rfl] at hsucc
    simp [with_retry, retryLoop, he0, hsucc]
    norm_num [List.range_succ]
  · obtain ⟨e0, he0⟩ := hfail 0 (by omega)
    obtain ⟨e1, he1⟩ := hfail 1 (by omega)
    simp only [show 3 - 1 = 2 from rfl] at hsucc
    simp [with_retry, retryLoop, he0, he1, hsucc, List.range_succ]

/-- Witness for C1 at N = 3: fails on attempts 0 and 1, succeeds on
attempt 2; the result is 42 and the total sleep is 3 seconds. -/
theorem with_retry_success_total_sleep_witness :
    ((1 : Nat) ≤ 3 ∧ (3 : Nat) ≤ 3) ∧
    (with_retry 3 1 (fun k => if k < 2 then Except.error k else Except.ok 42)).1
      = Except.ok 42 ∧
    (with_retry 3 1 (fun k => if k < 2 then Except.error k else Except.ok 42)).2.sum
      = ((List.range 2).map (fun k => (1 : ℚ) * 2 ^ k)).sum :=
  ⟨⟨by decide, by decide⟩,
   with_retry_success_total_sleep 3 _ 42 ⟨by decide, by decide⟩
     (fun k hk => ⟨k, by have hk2 : k < 2 := by omega
                         simp [hk2]⟩)
     (by norm_num)⟩

/-- Counterexample to claim C2 as stated: when every attempt fails, the
sleep list is [1, 2, 4] — the wrapper also sleeps 4 seconds after the final
(3rd) failed attempt, before re-raising, so it does not sleep only between
consecutive attempts ([1, 2]). -/
theorem with_retry_trailing_sleep_cex :
    (with_retry 3 1 (fun k => (Except.error k : Except Nat Unit))).2 = [1, 2, 4] ∧
    (with_retry 3 1 (fun k => (Except.error k : Except Nat Unit))).2 ≠ [1, 2] := by
  have h : (with_retry 3 1 (fun k => (Except.error k : Except Nat Unit))).2 = [1, 2, 4] := by
    norm_num [with_retry, retryLoop]
  refine ⟨h, ?_⟩
  rw [h]
  simp

/-- Claim C2 amended: between attempt k and the next the wrapper sleeps
base_delay_s * 2^k seconds (1s and 2s before attempts 2 and 3), and when
all three attempts fail it additionally sleeps base_delay_s * 2^2 = 4
seconds after the final failed attempt before re-raising the last
exception: the full sleep list is [1, 2, 4]. -/
theorem with_retry_all_fail_sleeps {E A : Type} (op : Nat → Except E A) (f : Nat → E)
    (h : ∀ k, k < 3 → op k = Except.error (f k)) :
    with_retry 3 1 op = (Except.error (some (f 2)), [1, 2, 4]) := by
  have h0 := h 0 (by omega)
  have h1 := h 1 (by omega)
  have h2 := h 2 (by omega)
  simp [with_retry, retryLoop, h0, h1, h2]
  norm_num

/-- Witness for the amended C2: an operation failing on every attempt with
exception k on attempt k sleeps 1s, 2s and 4s and re-raises exception 2. -/
theorem with_retry_all_fail_sleeps_witness :
    with_retry 3 1 (fun k => (Except.error k : Except Nat Unit))
      = (Except.error (some 2), [1, 2, 4]) :=
  with_retry_all_fail_sleeps _ (fun k => k) (fun _ _ => rfl)

/-- Claim C3: if all 3 attempts raise, the wrapper re-raises exactly the
exception of the 3rd (final) attempt — not the first attempt's exception
and not a new error. -/
theorem with_retry_raises_last_exception {E A : Type} (op : Nat → Except E A)
    (e0 e1 e2 : E)
    (h0 : op 0 = Except.error e0) (h1 : op 1 = Except.error e1)
    (h2 : op 2 = Except.error e2) :
    (with_retry 3 1 op).1 = Except.error (some e2) := by
  simp [with_retry, retryLoop, h0, h1, h2]

/-- Witness for C3: attempts raise 0, 1, 2; the wrapper re-raises 2 (the
third attempt's exception, which differs from the first's). -/
theorem with_retry_raises_last_exception_witness :
    (with_retry 3 1 (fun k => (Except.error k : Except Nat Unit))).1
      = Except.error (some 2) ∧ (2 : Nat) ≠ 0 :=
  ⟨with_retry_raises_last_exception _ 0 1 2 rfl rfl rfl, by decide⟩

/-!
## The client (`GraphConfig`, `GraphClient`, `src/graph_client.py` lines 7-127)

The mutable world is threaded explicitly.  `GraphState` holds the client's
configuration and cached token (`self.cfg`, `self._token`) together with
the observable effects: the HTTP environment (what response the network
returns to the n-th request issued), the number of requests issued so far,
the trace of requests, and the sleeps performed.  A computation is
`GraphState → Except GraphError α × GraphState`; an exception leaves the
mutations that already happened in place, as in Python.
-/

/-- The five configuration fields of `GraphConfig`.  The source gives
`base_url` the default `"https://graph.microsoft.com/v1.0"`
(`defaultBaseUrl` below). -/
structure GraphConfig where
  tenant_id : String
  client_id : String
  client_secret : String
  scheduler_mailbox : String
  base_url : String

/-- Default for `GraphConfig.base_url` in the source. -/
def defaultBaseUrl : String := "https://graph.microsoft.com/v1.0"

/-- An HTTP response: status code and body.  `content = none` models an
empty body; `content = some j` a body that parses as the JSON value `j`.
(Python's `r.json()` maps a literal `null` body to `None`, collapsing it
with the empty body; no claim depends on that corner.) -/
structure HttpResponse where
  status : Nat
  content : Option Json

/-- An HTTP request as issued by the client: method, URL, query parameters
(`params=`), form-encoded body (`data=`, used only by the token fetch),
JSON body (`json=`), the bearer token the Authorization header was built
from (none for the token fetch itself), and the timeout in seconds. -/
structure HttpRequest where
  method : String
  url : String
  params : Option (List (String × String))
  formData : Option (List (String × String))
  jsonBody : Option Json
  bearer : Option Json
  timeout : Nat

/-- The network: the response returned to the n-th request issued (counted
from 0), as a function of that request. -/
abbrev Env : Type := Nat → HttpRequest → HttpResponse

/-- Exceptions the embedded code can raise: `requests.HTTPError` from
`raise_for_status` (carrying status and body), `r.json()` failing on an
empty body, a missing dictionary key (Python's `KeyError`, also covering
the `TypeError` of subscripting a non-dict), and the degenerate
`raise None` of the retry wrapper when no attempt ran. -/
inductive GraphError where
  | httpError (status : Nat) (body : Option Json)
  | jsonDecodeError
  | missingKey (key : String)
  | raiseNone

/-- The state threaded through the client: `self.cfg`, `self._token`, and
the observable world (network, request count, request trace, sleeps). -/
structure GraphState where
  cfg : GraphConfig
  _token : Option Json
  env : Env
  reqCount : Nat
  trace : List HttpRequest
  sleeps : List ℚ

/-- A stateful computation of the client: Python, with exceptions made
explicit and state mutations kept on exceptional exit. -/
abbrev GraphM (α : Type) : Type := GraphState → Except GraphError α × GraphState

/-- Issue one HTTP request: record it in the trace and receive the
environment's response. -/
def doRequest (req : HttpRequest) : GraphM HttpResponse := fun s =>
  (Except.ok (s.env s.reqCount req),
   { s with reqCount := s.reqCount + 1, trace := s.trace ++ [req] })

/-- `r.raise_for_status()`: raises `HTTPError` exactly for 4xx and 5xx
status codes. -/
def raiseForStatus (r : HttpResponse) : GraphM Unit := fun s =>
  if 400 ≤ r.status ∧ r.status < 600 then
    (Except.error (GraphError.httpError r.status r.content), s)
  else
    (Except.ok (), s)

/-- The identity-endpoint URL of `_get_token`:
`https://login.microsoftonline.com/{tenant_id}/oauth2/v2.0/token`. -/
def tokenUrl (cfg : GraphConfig) : String :=
  "https://login.microsoftonline.com/" ++ cfg.tenant_id ++ "/oauth2/v2.0/token"

/-- The form-encoded body of the token request. -/
def tokenRequestData (cfg : GraphConfig) : List (String × String) :=
  [("client_id", cfg.client_id),
   ("client_secret", cfg.client_secret),
   ("grant_type", "client_credentials"),
   ("scope", "https://graph.microsoft.com/.default")]

/-- The token request issued by `_get_token`
(`requests.post(url, data=data, timeout=15)`). -/
def mkTokenRequest (cfg : GraphConfig) : HttpRequest :=
  { method := "POST", url := tokenUrl cfg, params := none,
    formData := some (tokenRequestData cfg), jsonBody := none,
    bearer := none, timeout := 15 }

/-- The fetch path of `_get_token` (lines 47-57): POST to the identity
endpoint, `raise_for_status`, read `r.json()["access_token"]`, cache it,
return it. -/
def fetchToken : GraphM Json := fun s =>
  match doRequest (mkTokenRequest s.cfg) s with
  | (Except.error e, s1) => (Except.error e, s1)
  | (Except.ok r, s1) =>
    match raiseForStatus r s1 with
    | (Except.error e, s2) => (Except.error e, s2)
    | (Except.ok _, s2) =>
      match r.content with
      | none => (Except.error GraphError.jsonDecodeError, s2)
      | some j =>
        match j.lookup "access_token" with
        | none => (Except.error (GraphError.missingKey "access_token"), s2)
        | some tok => (Except.ok tok, { s2 with _token := some tok })

/-- `_get_token` (lines 43-57): `if self._token: return self._token`,
else fetch.  The guard is Python truthiness, so a cached empty string does
not short-circuit. -/
def getToken : GraphM Json := fun s =>
  match s._token with
  | some t => if t.truthy then (Except.ok t, s) else fetchToken s
  | none => fetchToken s

/-- An API request as issued by `_request` (with `self._headers()`
contributing the bearer token). -/
def mkApiRequest (method url : String) (params : Option (List (String × String)))
    (jsonBody : Option Json) (tok : Json) : HttpRequest :=
  { method := method, url := url, params := params, formData := none,
    jsonBody := jsonBody, bearer := some tok, timeout := 20 }

/-- `_request` (lines 65-75): build headers (which lazily fetches the
token), issue the request, `raise_for_status`, and return
`(r.status_code, r.json() if r.content else None)`. -/
def requestM (method url : String) (params : Option (List (String × String)))
    (jsonBody : Option Json) : GraphM (Nat × Option Json) := fun s =>
  match getToken s with
  | (Except.error e, s1) => (Except.error e, s1)
  | (Except.ok tok, s1) =>
    match doRequest (mkApiRequest method url params jsonBody tok) s1 with
    | (Except.error e, s2) => (Except.error e, s2)
    | (Except.ok r, s2) =>
      match raiseForStatus r s2 with
      | (Except.error e, s3) => (Except.error e, s3)
      | (Except.ok _, s3) => (Except.ok (r.status, r.content), s3)

/-- `body or {}` on the optional response body of `_request`: the decoded
body when truthy, the empty mapping otherwise. -/
def bodyOrEmpty : Option Json → Json
  | none => Json.obj []
  | some j => if j.truthy then j else Json.obj []

/-- The events-collection URL `{base_url}/users/{mailbox}/events`. -/
def eventsUrl (cfg : GraphConfig) : String :=
  cfg.base_url ++ "/users/" ++ cfg.scheduler_mailbox ++ "/events"

/-- The single-event URL `{base_url}/users/{mailbox}/events/{event_id}`. -/
def eventUrl (cfg : GraphConfig) (eventId : String) : String :=
  eventsUrl cfg ++ "/" ++ eventId

/-- The send-mail URL `{base_url}/users/{mailbox}/sendMail`. -/
def sendMailUrl (cfg : GraphConfig) : String :=
  cfg.base_url ++ "/users/" ++ cfg.scheduler_mailbox ++ "/sendMail"

/-- The body of `create_event` (lines 80-94), one attempt.  The source
defaults `send_updates` to `"all"`. -/
def createEventOnce (eventPayload : Json) (sendUpdates : String) : GraphM Json := fun s =>
  match requestM "POST" (eventsUrl s.cfg) (some [("sendUpdates", sendUpdates)])
      (some eventPayload) s with
  | (Except.error e, s1) => (Except.error e, s1)
  | (Except.ok (_, body), s1) => (Except.ok (bodyOrEmpty body), s1)

/-- The body of `patch_event` (lines 96-105), one attempt: the response is
discarded and nothing is returned.  The source defaults `send_updates` to
`"all"`. -/
def patchEventOnce (eventId : String) (patchPayload : Json) (sendUpdates : String) :
    GraphM Unit := fun s =>
  match requestM "PATCH" (eventUrl s.cfg eventId) (some [("sendUpdates", sendUpdates)])
      (some patchPayload) s with
  | (Except.error e, s1) => (Except.error e, s1)
  | (Except.ok _, s1) => (Except.ok (), s1)

/-- One entry of `toRecipients`:
`{"emailAddress": {"address": addr}}`. -/
def recipientObj (addr : String) : Json :=
  Json.obj [("emailAddress", Json.obj [("address", Json.str addr)])]

/-- The `message` object built by `send_mail` (lines 117-124): subject,
HTML body, recipients, and — only when the attachments argument is truthy,
i.e. a non-empty list — the attachments verbatim. -/
def sendMailMessage (toAddrs : List String) (subject bodyHtml : String)
    (attachments : Option (List Json)) : Json :=
  match attachments with
  | some (a :: rest) =>
      Json.obj [("subject", Json.str subject),
                ("body", Json.obj [("contentType", Json.str "HTML"),
                                   ("content", Json.str bodyHtml)]),
                ("toRecipients", Json.arr (toAddrs.map recipientObj)),
                ("attachments", Json.arr (a :: rest))]
  | _ =>
      Json.obj [("subject", Json.str subject),
                ("body", Json.obj [("contentType", Json.str "HTML"),
                                   ("content", Json.str bodyHtml)]),
                ("toRecipients", Json.arr (toAddrs.map recipientObj))]

/-- The envelope posted by `send_mail` (line 126):
`{"message": message, "saveToSentItems": True}`. -/
def sendMailPayload (toAddrs : List String) (subject bodyHtml : String)
    (attachments : Option (List Json)) : Json :=
  Json.obj [("message", sendMailMessage toAddrs subject bodyHtml attachments),
            ("saveToSentItems", Json.bool true)]

/-- The body of `send_mail` (lines 107-127), one attempt: POST the envelope
with no query parameters; nothing is returned. -/
def sendMailOnce (toAddrs : List String) (subject bodyHtml : String)
    (attachments : Option (List Json)) : GraphM Unit := fun s =>
  match requestM "POST" (sendMailUrl s.cfg) none
      (some (sendMailPayload toAddrs subject bodyHtml attachments)) s with
  | (Except.error e, s1) => (Except.error e, s1)
  | (Except.ok _, s1) => (Except.ok (), s1)

/-- The retry wrapper applied to a stateful operation, mirroring
`with_retry`'s loop over the client state: on an exception the sleep is
recorded and the attempt repeated on the mutated state; after the last
attempt the last exception is re-raised (`raiseNone` for the degenerate
zero-attempt case). -/
def withRetryM {α : Type} (base : ℚ) (op : GraphM α) :
    Nat → Nat → Option GraphError → GraphM α
  | 0, _, last => fun s =>
      (Except.error (match last with
                     | some e => e
                     | none => GraphError.raiseNone), s)
  | fuel + 1, attempt, _ => fun s =>
      match op s with
      | (Except.ok a, s1) => (Except.ok a, s1)
      | (Except.error e, s1) =>
          withRetryM base op fuel (attempt + 1) (some e)
            { s1 with sleeps := s1.sleeps ++ [base * 2 ^ attempt] }

/-- `@with_retry(max_attempts=3, base_delay_s=1.0)`, as applied to the
three public operations. -/
def retryPolicy {α : Type} (op : GraphM α) : GraphM α :=
  withRetryM 1 op 3 0 none

/-- `create_event`, retry-wrapped. -/
def create_event (eventPayload : Json) (sendUpdates : String) : GraphM Json :=
  retryPolicy (createEventOnce eventPayload sendUpdates)

/-- `patch_event`, retry-wrapped. -/
def patch_event (eventId : String) (patchPayload : Json) (sendUpdates : String) :
    GraphM Unit :=
  retryPolicy (patchEventOnce eventId patchPayload sendUpdates)

/-- `send_mail`, retry-wrapped. -/
def send_mail (toAddrs : List String) (subject bodyHtml : String)
    (attachments : Option (List Json)) : GraphM Unit :=
  retryPolicy (sendMailOnce toAddrs subject bodyHtml attachments)

/-- A call to one of the three public operations, with its arguments. -/
inductive OpCall where
  | createEvent (eventPayload : Json) (sendUpdates : String)
  | patchEvent (eventId : String) (patchPayload : Json) (sendUpdates : String)
  | sendMail (toAddrs : List String) (subject bodyHtml : String)
      (attachments : Option (List Json))

/-- Run one operation call, discarding its return value. -/
def runOp : OpCall → GraphM Unit
  | OpCall.createEvent p su => fun s =>
      match create_event p su s with
      | (Except.ok _, s1) => (Except.ok (), s1)
      | (Except.error e, s1) => (Except.error e, s1)
  | OpCall.patchEvent eid p su => patch_event eid p su
  | OpCall.sendMail toAddrs subj b atts => send_mail toAddrs subj b atts

/-- Run a sequence of operation calls, stopping at the first uncaught
exception. -/
def runOps : List OpCall → GraphM Unit
  | [] => fun s => (Except.ok (), s)
  | c :: rest => fun s =>
      match runOp c s with
      | (Except.ok _, s1) => runOps rest s1
      | (Except.error e, s1) => (Except.error e, s1)

/-- The state of a freshly constructed `GraphClient(cfg)` facing the
network `env`: `self._token = None`, nothing issued yet. -/
def initState (cfg : GraphConfig) (env : Env) : GraphState :=
  { cfg := cfg, _token := none, env := env, reqCount := 0,
    trace := [], sleeps := [] }

/-- The token fetch is the only form-encoded request the client ever
issues, so token requests are recognised in the trace by their form body. -/
def isTokenRequest (r : HttpRequest) : Bool := r.formData.isSome

/-- How many token requests a trace contains. -/
def tokenRequestCount (tr : List HttpRequest) : Nat :=
  (tr.filter isTokenRequest).length

/-- Whether the cached token is truthy, i.e. whether `if self._token:`
takes the fast path. -/
def tokTruthy (s : GraphState) : Bool :=
  match s._token with
  | some t => t.truthy
  | none => false

/-!
## Structural lemmas about the token path
-/

/-- The response the network gives to the token request issued from
state `s`. -/
def tokenResp (s : GraphState) : HttpResponse :=
  s.env s.reqCount (mkTokenRequest s.cfg)

/-- The state right after the token POST has been issued. -/
def fetchAttemptState (s : GraphState) : GraphState :=
  { s with reqCount := s.reqCount + 1, trace := s.trace ++ [mkTokenRequest s.cfg] }

/-- `fetchToken`, with the request issuing reduced away: one token POST,
then either `HTTPError`, or `r.json()` failing on an empty body, or a
missing `access_token` key, or success caching the token. -/
theorem fetchToken_eq (s : GraphState) :
    fetchToken s =
      if 400 ≤ (tokenResp s).status ∧ (tokenResp s).status < 600 then
        (Except.error (GraphError.httpError (tokenResp s).status (tokenResp s).content),
         fetchAttemptState s)
      else
        match (tokenResp s).content with
        | none => (Except.error GraphError.jsonDecodeError, fetchAttemptState s)
        | some j =>
          match j.lookup "access_token" with
          | none => (Except.error (GraphError.missingKey "access_token"), fetchAttemptState s)
          | some tok => (Except.ok tok, { fetchAttemptState s with _token := some tok }) := by
  simp only [fetchToken, doRequest, raiseForStatus, tokenResp, fetchAttemptState]
  by_cases h : 400 ≤ (s.env s.reqCount (mkTokenRequest s.cfg)).status ∧
      (s.env s.reqCount (mkTokenRequest s.cfg)).status < 600
  · simp [h]
  · simp [h]

/-- Whatever happens, `fetchToken` leaves configuration, network, and
sleeps alone, and issues exactly one request: the token POST. -/
theorem fetchToken_frame (s : GraphState) :
    ((fetchToken s).2).cfg = s.cfg ∧ ((fetchToken s).2).env = s.env ∧
    ((fetchToken s).2).trace = s.trace ++ [mkTokenRequest s.cfg] ∧
    ((fetchToken s).2).reqCount = s.reqCount + 1 ∧
    ((fetchToken s).2).sleeps = s.sleeps := by
  rw [fetchToken_eq]
  split
  · exact ⟨rfl, rfl, rfl, rfl, rfl⟩
  · split
    · exact ⟨rfl, rfl, rfl, rfl, rfl⟩
    · split
      · exact ⟨rfl, rfl, rfl, rfl, rfl⟩
      · exact ⟨rfl, rfl, rfl, rfl, rfl⟩

/-- Either the fetch raises (and the state is just the post-request state,
token untouched) or it succeeds and caches exactly the returned token. -/
theorem fetchToken_cases (s : GraphState) :
    (∃ e, fetchToken s = (Except.error e, fetchAttemptState s)) ∨
    (∃ tok, fetchToken s
        = (Except.ok tok, { fetchAttemptState s with _token := some tok })) := by
  rw [fetchToken_eq]
  split
  · exact Or.inl ⟨_, rfl⟩
  · split
    · exact Or.inl ⟨_, rfl⟩
    · split
      · exact Or.inl ⟨_, rfl⟩
      · exact Or.inr ⟨_, rfl⟩

/-- A failed `fetchToken` does not touch the cached token. -/
theorem fetchToken_error_token_unchanged (s : GraphState) (e : GraphError)
    (h : (fetchToken s).1 = Except.error e) :
    ((fetchToken s).2)._token = s._token := by
  rcases fetchToken_cases s with ⟨e', heq⟩ | ⟨tok, heq⟩
  · rw [heq]
    rfl
  · rw [heq] at h
    exact absurd h (by simp)

/-- A successful `fetchToken` caches exactly the token it returns
(unconditionally — even an empty string). -/
theorem fetchToken_ok_stores (s : GraphState) (j : Json) (s2 : GraphState)
    (h : fetchToken s = (Except.ok j, s2)) : s2._token = some j := by
  rcases fetchToken_cases s with ⟨e', heq⟩ | ⟨tok, heq⟩
  · rw [heq] at h
    simp [Prod.ext_iff] at h
  · rw [heq] at h
    injection h with h1 h2
    injection h1 with h1
    rw [← h2, ← h1]

/-- A concrete configuration used by the concrete scenarios below. -/
def demoCfg : GraphConfig :=
  { tenant_id := "tenant", client_id := "client-id", client_secret := "secret",
    scheduler_mailbox := "scheduler@example.com", base_url := defaultBaseUrl }

/-- A network that always answers HTTP 500 with an empty body. -/
def failEnv : Env := fun _ _ => { status := 500, content := none }

/-- A fresh client facing the always-failing network. -/
def failState : GraphState := initState demoCfg failEnv

/-- `_get_token` either takes the cache hit (truthy cached token, no state
change) or is exactly the fetch path. -/
theorem getToken_cases (s : GraphState) :
    (∃ t, s._token = some t ∧ t.truthy = true ∧ getToken s = (Except.ok t, s)) ∨
    (tokTruthy s = false ∧ getToken s = fetchToken s) := by
  rcases htok : s._token with _ | t
  · exact Or.inr ⟨by simp [tokTruthy, htok], by simp [getToken, htok]⟩
  · by_cases ht : t.truthy
    · exact Or.inl ⟨t, rfl, ht, by simp [getToken, htok, ht]⟩
    · exact Or.inr ⟨by simp [tokTruthy, htok, ht], by simp [getToken, htok, ht]⟩

/-- Claim C9: a failed token fetch (non-success status, or a success
response whose JSON lacks the access_token field) leaves the cached token
unchanged — still unset if it was unset — so the failure is atomic with
respect to client state; the cache is mutated only by a fully successful
fetch. -/
theorem token_cache_unchanged_on_fetch_failure (s : GraphState) (e : GraphError)
    (h : (getToken s).1 = Except.error e) :
    ((getToken s).2)._token = s._token := by
  rcases getToken_cases s with ⟨t, _, _, heq⟩ | ⟨_, heq⟩
  · rw [heq] at h
    exact absurd h (by simp)
  · rw [heq] at h ⊢
    exact fetchToken_error_token_unchanged s e h

/-- Witness for C9: against the 500-network, a fresh client's token fetch
raises `HTTPError(500)` and the cache remains unset. -/
theorem token_cache_unchanged_on_fetch_failure_witness :
    (getToken failState).1 = Except.error (GraphError.httpError 500 none) ∧
    ((getToken failState).2)._token = none :=
  ⟨rfl, token_cache_unchanged_on_fetch_failure failState _ rfl⟩

/-- Claim C10: the cached-token fast path is taken exactly when the stored
token is truthy (a non-empty string): a truthy cached token is returned
with no state change at all; otherwise the call is a fresh fetch, which
always issues exactly one token request and, on success, stores whatever
value the access_token field held — even an empty string, which later
calls will then not treat as a cache hit. -/
theorem get_token_cache_behavior (s : GraphState) :
    (∀ t, s._token = some t → t.truthy = true → getToken s = (Except.ok t, s)) ∧
    (tokTruthy s = false → getToken s = fetchToken s) ∧
    ((fetchToken s).2).trace = s.trace ++ [mkTokenRequest s.cfg] ∧
    (∀ j s2, fetchToken s = (Except.ok j, s2) → s2._token = some j) := by
  refine ⟨?_, ?_, (fetchToken_frame s).2.2.1, fun j s2 h => fetchToken_ok_stores s j s2 h⟩
  · intro t ht htr
    simp [getToken, ht, htr]
  · intro hf
    rcases htok : s._token with _ | t
    · simp [getToken, htok]
    · have ht : t.truthy = false := by simpa [tokTruthy, htok] using hf
      simp [getToken, htok, ht]

/-- A client state holding a truthy cached token. -/
def cachedTokState : GraphState :=
  { cfg := demoCfg, _token := some (Json.str "tok"), env := failEnv,
    reqCount := 0, trace := [], sleeps := [] }

/-- A client state whose cached token is the empty string. -/
def emptyTokState : GraphState :=
  { cfg := demoCfg, _token := some (Json.str ""), env := failEnv,
    reqCount := 0, trace := [], sleeps := [] }

/-- Witness for C10: a cached "tok" is returned unchanged with no request,
while a cached empty string falls through to a fresh fetch. -/
theorem get_token_cache_behavior_witness :
    getToken cachedTokState = (Except.ok (Json.str "tok"), cachedTokState) ∧
    getToken emptyTokState = fetchToken emptyTokState :=
  ⟨(get_token_cache_behavior cachedTokState).1 _ rfl rfl,
   (get_token_cache_behavior emptyTokState).2.1 rfl⟩

/-!
## Frame lemmas: nothing ever writes the configuration or the network
-/

/-- `getToken` preserves configuration and network. -/
theorem getToken_frame (s : GraphState) :
    ((getToken s).2).cfg = s.cfg ∧ ((getToken s).2).env = s.env := by
  have hf := fetchToken_frame s
  unfold getToken
  rcases htok : s._token with _ | t
  · exact ⟨hf.1, hf.2.1⟩
  · by_cases ht : t.truthy
    · simp [ht]
    · simp only [ht, if_false]
      exact ⟨hf.1, hf.2.1⟩

/-- `_request` preserves configuration and network. -/
theorem requestM_frame (m u : String) (p : Option (List (String × String)))
    (b : Option Json) (s : GraphState) :
    ((requestM m u p b s).2).cfg = s.cfg ∧ ((requestM m u p b s).2).env = s.env := by
  have h1 := getToken_frame s
  unfold requestM
  rcases hg : getToken s with ⟨res, s1⟩
  rw [hg] at h1
  cases res with
  | error e => exact h1
  | ok tok =>
    simp only [doRequest, raiseForStatus]
    by_cases hst : 400 ≤ (s1.env s1.reqCount (mkApiRequest m u p b tok)).status ∧
        (s1.env s1.reqCount (mkApiRequest m u p b tok)).status < 600
    · rw [if_pos hst]
      exact h1
    · rw [if_neg hst]
      exact h1

/-- One `create_event` attempt preserves configuration and network. -/
theorem createEventOnce_frame (p : Json) (su : String) (s : GraphState) :
    ((createEventOnce p su s).2).cfg = s.cfg ∧ ((createEventOnce p su s).2).env = s.env := by
  have h1 := requestM_frame "POST" (eventsUrl s.cfg) (some [("sendUpdates", su)]) (some p) s
  unfold createEventOnce
  rcases hr : requestM "POST" (eventsUrl s.cfg) (some [("sendUpdates", su)]) (some p) s
    with ⟨res, s1⟩
  rw [hr] at h1
  rcases res with e | ⟨st, body⟩
  · exact h1
  · exact h1

/-- One `patch_event` attempt preserves configuration and network. -/
theorem patchEventOnce_frame (eid : String) (p : Json) (su : String) (s : GraphState) :
    ((patchEventOnce eid p su s).2).cfg = s.cfg ∧
    ((patchEventOnce eid p su s).2).env = s.env := by
  have h1 := requestM_frame "PATCH" (eventUrl s.cfg eid) (some [("sendUpdates", su)])
    (some p) s
  unfold patchEventOnce
  rcases hr : requestM "PATCH" (eventUrl s.cfg eid) (some [("sendUpdates", su)]) (some p) s
    with ⟨res, s1⟩
  rw [hr] at h1
  rcases res with e | r
  · exact h1
  · exact h1

/-- One `send_mail` attempt preserves configuration and network. -/
theorem sendMailOnce_frame (toAddrs : List String) (subj bh : String)
    (atts : Option (List Json)) (s : GraphState) :
    ((sendMailOnce toAddrs subj bh atts s).2).cfg = s.cfg ∧
    ((sendMailOnce toAddrs subj bh atts s).2).env = s.env := by
  have h1 := requestM_frame "POST" (sendMailUrl s.cfg) none
    (some (sendMailPayload toAddrs subj bh atts)) s
  unfold sendMailOnce
  rcases hr : requestM "POST" (sendMailUrl s.cfg) none
      (some (sendMailPayload toAddrs subj bh atts)) s with ⟨res, s1⟩
  rw [hr] at h1
  rcases res with e | r
  · exact h1
  · exact h1

/-- The retry wrapper preserves whatever configuration/network frame its
wrapped operation preserves. -/
theorem withRetryM_frame {α : Type} (base : ℚ) (op : GraphM α)
    (hop : ∀ s, ((op s).2).cfg = s.cfg ∧ ((op s).2).env = s.env) :
    ∀ fuel attempt last s,
      ((withRetryM base op fuel attempt last s).2).cfg = s.cfg ∧
      ((withRetryM base op fuel attempt last s).2).env = s.env := by
  intro fuel
  induction fuel with
  | zero => intro attempt last s; exact ⟨rfl, rfl⟩
  | succ n ih =>
    intro attempt last s
    have h1 := hop s
    unfold withRetryM
    rcases hop' : op s with ⟨res, s1⟩
    rw [hop'] at h1
    cases res with
    | ok a => exact h1
    | error e =>
      have h2 := ih (attempt + 1) (some e) { s1 with sleeps := s1.sleeps ++ [base * 2 ^ attempt] }
      exact ⟨by rw [h2.1]; exact h1.1, by rw [h2.2]; exact h1.2⟩

/-- Every public operation call preserves configuration and network. -/
theorem runOp_frame (c : OpCall) (s : GraphState) :
    ((runOp c s).2).cfg = s.cfg ∧ ((runOp c s).2).env = s.env := by
  cases c with
  | createEvent p su =>
    have h1 := withRetryM_frame 1 (createEventOnce p su) (createEventOnce_frame p su) 3 0 none s
    simp only [runOp, create_event, retryPolicy]
    rcases hr : withRetryM 1 (createEventOnce p su) 3 0 none s with ⟨res, s1⟩
    rw [hr] at h1
    cases res with
    | ok a => exact h1
    | error e => exact h1
  | patchEvent eid p su =>
    exact withRetryM_frame 1 (patchEventOnce eid p su) (patchEventOnce_frame eid p su) 3 0 none s
  | sendMail toAddrs subj bh atts =>
    exact withRetryM_frame 1 (sendMailOnce toAddrs subj bh atts)
      (sendMailOnce_frame toAddrs subj bh atts) 3 0 none s

/-- Any sequence of operation calls preserves configuration and network. -/
theorem runOps_frame (ops : List OpCall) : ∀ s : GraphState,
    ((runOps ops s).2).cfg = s.cfg ∧ ((runOps ops s).2).env = s.env := by
  induction ops with
  | nil => intro s; exact ⟨rfl, rfl⟩
  | cons c rest ih =>
    intro s
    have h1 := runOp_frame c s
    unfold runOps
    rcases hr : runOp c s with ⟨res, s1⟩
    rw [hr] at h1
    cases res with
    | ok a =>
      have h2 := ih s1
      exact ⟨by rw [h2.1]; exact h1.1, by rw [h2.2]; exact h1.2⟩
    | error e => exact h1

/-- Claim C8: the configuration is immutable after construction — no
operation of the client (token fetch, create_event, patch_event,
send_mail, or any internal request), nor any sequence of them, modifies
any of the five configuration fields; afterwards they equal the values
given at construction. -/
theorem config_immutable (cfg : GraphConfig) (env : Env) (ops : List OpCall) :
    ((runOps ops (initState cfg env)).2).cfg = cfg ∧
    ((runOps ops (initState cfg env)).2).cfg.tenant_id = cfg.tenant_id ∧
    ((runOps ops (initState cfg env)).2).cfg.client_id = cfg.client_id ∧
    ((runOps ops (initState cfg env)).2).cfg.client_secret = cfg.client_secret ∧
    ((runOps ops (initState cfg env)).2).cfg.scheduler_mailbox = cfg.scheduler_mailbox ∧
    ((runOps ops (initState cfg env)).2).cfg.base_url = cfg.base_url := by
  have h := (runOps_frame ops (initState cfg env)).1
  rw [h]
  exact ⟨rfl, rfl, rfl, rfl, rfl, rfl⟩

/-!
## Inversion lemmas for successful runs
-/

/-- Appending one request adds 1 to the token-request count exactly when it
is a token request. -/
theorem tokenRequestCount_append (tr : List HttpRequest) (r : HttpRequest) :
    tokenRequestCount (tr ++ [r]) =
      tokenRequestCount tr + (if isTokenRequest r then 1 else 0) := by
  unfold tokenRequestCount
  rw [List.filter_append, List.length_append]
  by_cases hr : isTokenRequest r <;> simp [hr]

/-- A successful `_get_token` either changed nothing (cache hit) or issued
exactly the one token request and cached the returned token. -/
theorem getToken_ok_state (s : GraphState) (tok : Json) (s1 : GraphState)
    (h : getToken s = (Except.ok tok, s1)) :
    ∃ pre, (pre = [] ∨ pre = [mkTokenRequest s.cfg]) ∧
      s1.cfg = s.cfg ∧ s1.env = s.env ∧ s1.sleeps = s.sleeps ∧
      s1.reqCount = s.reqCount + pre.length ∧
      s1.trace = s.trace ++ pre ∧ s1._token = some tok := by
  rcases getToken_cases s with ⟨t, htok, _, heq⟩ | ⟨_, heq⟩
  · rw [heq] at h
    injection h with h1 h2
    injection h1 with h1
    subst h2
    subst h1
    exact ⟨[], Or.inl rfl, rfl, rfl, rfl, by simp, by simp, htok⟩
  · rw [heq] at h
    rcases fetchToken_cases s with ⟨e, hf⟩ | ⟨tk, hf⟩
    · rw [hf] at h
      exact absurd h (by simp [Prod.ext_iff])
    · rw [hf] at h
      injection h with h1 h2
      injection h1 with h1
      subst h2
      subst h1
      exact ⟨[mkTokenRequest s.cfg], Or.inr rfl, rfl, rfl, rfl, rfl, rfl, rfl⟩

/-- A successful `_request` issued the API request described by its
arguments (preceded by at most one token fetch), returned exactly the
response's status and decoded body, and left a truthy-or-stored token. -/
theorem requestM_ok_inversion (m u : String) (p : Option (List (String × String)))
    (b : Option Json) (s : GraphState) (res : Nat × Option Json) (s' : GraphState)
    (h : requestM m u p b s = (Except.ok res, s')) :
    ∃ pre tok, (pre = [] ∨ pre = [mkTokenRequest s.cfg]) ∧
      s'.trace = s.trace ++ pre ++ [mkApiRequest m u p b tok] ∧
      s'._token = some tok ∧ s'.cfg = s.cfg ∧ s'.env = s.env ∧ s'.sleeps = s.sleeps ∧
      s'.reqCount = s.reqCount + pre.length + 1 ∧
      res = ((s.env (s.reqCount + pre.length) (mkApiRequest m u p b tok)).status,
             (s.env (s.reqCount + pre.length) (mkApiRequest m u p b tok)).content) := by
  unfold requestM at h
  rcases hg : getToken s with ⟨resg, s1⟩
  rw [hg] at h
  cases resg with
  | error e => exact absurd h (by simp [Prod.ext_iff])
  | ok tok =>
    obtain ⟨pre, hpre, hcfg, henv, hsl, hrc, htr, htok⟩ := getToken_ok_state s tok s1 hg
    simp only [doRequest] at h
    by_cases hst : 400 ≤ (s1.env s1.reqCount (mkApiRequest m u p b tok)).status ∧
        (s1.env s1.reqCount (mkApiRequest m u p b tok)).status < 600
    · rw [raiseForStatus, if_pos hst] at h
      exact absurd h (by simp [Prod.ext_iff])
    · rw [raiseForStatus, if_neg hst] at h
      injection h with h1 h2
      injection h1 with h1
      refine ⟨pre, tok, hpre, ?_, ?_, ?_, ?_, ?_, ?_, ?_⟩
      · rw [← h2]
        show s1.trace ++ [mkApiRequest m u p b tok] = _
        rw [htr, List.append_assoc]
      · rw [← h2]
        exact htok
      · rw [← h2]
        exact hcfg
      · rw [← h2]
        exact henv
      · rw [← h2]
        exact hsl
      · rw [← h2]
        show s1.reqCount + 1 = _
        rw [hrc]
      · rw [← h1, henv, hrc]

/-!
## "No failure" environments and claim C4
-/

/-- A network on which no operation fails under the original claim's
reading: every response has a success status, and every token-endpoint
response carries an access_token field (of any value). -/
def EnvNoFailure (env : Env) : Prop :=
  ∀ n req, (env n req).status < 400 ∧
    (isTokenRequest req = true →
      ∃ j, ((env n req).content.bind (fun c => c.lookup "access_token")) = some j)

/-- As `EnvNoFailure`, but the access_token carried by token-endpoint
responses is additionally truthy (e.g. a non-empty string). -/
def EnvNoFailureTruthy (env : Env) : Prop :=
  ∀ n req, (env n req).status < 400 ∧
    (isTokenRequest req = true →
      ∃ j, ((env n req).content.bind (fun c => c.lookup "access_token")) = some j ∧
        j.truthy = true)

/-- On a good network the fetch succeeds with a truthy token and the
explicitly described state. -/
theorem fetchToken_good (s : GraphState) (henv : EnvNoFailureTruthy s.env) :
    ∃ tok, tok.truthy = true ∧
      fetchToken s = (Except.ok tok, { fetchAttemptState s with _token := some tok }) := by
  obtain ⟨hst, hreq⟩ := henv s.reqCount (mkTokenRequest s.cfg)
  obtain ⟨j, hj, hjt⟩ := hreq (by simp [isTokenRequest, mkTokenRequest])
  have hst' : (tokenResp s).status < 400 := hst
  have hj' : (tokenResp s).content.bind (fun c => c.lookup "access_token") = some j := hj
  refine ⟨j, hjt, ?_⟩
  rw [fetchToken_eq, if_neg (by omega)]
  rcases hc : (tokenResp s).content with _ | c
  · rw [hc] at hj'
    simp at hj'
  · rw [hc] at hj'
    simp at hj'
    simp [hj']

/-- On a good network `_request` succeeds, leaves a truthy cached token,
and issues exactly one token request if and only if the cache was not
already truthy. -/
theorem requestM_good (m u : String) (p : Option (List (String × String)))
    (b : Option Json) (s : GraphState) (henv : EnvNoFailureTruthy s.env) :
    ∃ res s', requestM m u p b s = (Except.ok res, s') ∧
      s'.env = s.env ∧ s'.cfg = s.cfg ∧ s'.sleeps = s.sleeps ∧ tokTruthy s' = true ∧
      tokenRequestCount s'.trace
        = tokenRequestCount s.trace + (if tokTruthy s then 0 else 1) := by
  rcases getToken_cases s with ⟨t, htok, ht, heq⟩ | ⟨htf, heq⟩
  · have htt : tokTruthy s = true := by simp [tokTruthy, htok, ht]
    have hst : (s.env s.reqCount (mkApiRequest m u p b t)).status < 400 :=
      (henv s.reqCount (mkApiRequest m u p b t)).1
    unfold requestM
    rw [heq]
    simp only [doRequest]
    rw [raiseForStatus, if_neg (by omega)]
    refine ⟨_, _, rfl, rfl, rfl, rfl, ?_, ?_⟩
    · simp [tokTruthy, htok, ht]
    · show tokenRequestCount (s.trace ++ [mkApiRequest m u p b t]) = _
      rw [tokenRequestCount_append, htt]
      simp [isTokenRequest, mkApiRequest]
  · obtain ⟨tok, htokt, hf⟩ := fetchToken_good s henv
    have hst : ((fetchAttemptState s).env (fetchAttemptState s).reqCount
        (mkApiRequest m u p b tok)).status < 400 :=
      (henv (s.reqCount + 1) (mkApiRequest m u p b tok)).1
    unfold requestM
    rw [heq, hf]
    simp only [doRequest]
    rw [raiseForStatus, if_neg (by omega)]
    refine ⟨_, _, rfl, rfl, rfl, rfl, ?_, ?_⟩
    · exact htokt
    · show tokenRequestCount ((s.trace ++ [mkTokenRequest s.cfg]) ++ [mkApiRequest m u p b tok]) = _
      rw [tokenRequestCount_append, tokenRequestCount_append, htf]
      simp [isTokenRequest, mkApiRequest, mkTokenRequest]

/-- If the wrapped operation's first attempt succeeds, the retry wrapper is
transparent: same result, same state, no sleeps. -/
theorem withRetryM_first_ok {α : Type} (base : ℚ) (op : GraphM α) (fuel attempt : Nat)
    (last : Option GraphError) (s : GraphState) (a : α) (s1 : GraphState)
    (hop : op s = (Except.ok a, s1)) :
    withRetryM base op (fuel + 1) attempt last s = (Except.ok a, s1) := by
  unfold withRetryM
  rw [hop]

/-- On a good network every public operation call succeeds, leaves a
truthy cached token, and issues a token request only when the cache was
not already truthy. -/
theorem runOp_good (c : OpCall) (s : GraphState) (henv : EnvNoFailureTruthy s.env) :
    ∃ s', runOp c s = (Except.ok (), s') ∧
      s'.env = s.env ∧ tokTruthy s' = true ∧
      tokenRequestCount s'.trace
        = tokenRequestCount s.trace + (if tokTruthy s then 0 else 1) := by
  cases c with
  | createEvent p su =>
    obtain ⟨res, s', hr, he, _, _, htt, hcount⟩ :=
      requestM_good "POST" (eventsUrl s.cfg) (some [("sendUpdates", su)]) (some p) s henv
    rcases res with ⟨st, body⟩
    have honce : createEventOnce p su s = (Except.ok (bodyOrEmpty body), s') := by
      unfold createEventOnce
      rw [hr]
    have hwrap := withRetryM_first_ok 1 (createEventOnce p su) 2 0 none s _ _ honce
    refine ⟨s', ?_, he, htt, hcount⟩
    simp only [runOp, create_event, retryPolicy]
    rw [hwrap]
  | patchEvent eid p su =>
    obtain ⟨res, s', hr, he, _, _, htt, hcount⟩ :=
      requestM_good "PATCH" (eventUrl s.cfg eid) (some [("sendUpdates", su)]) (some p) s henv
    have honce : patchEventOnce eid p su s = (Except.ok (), s') := by
      unfold patchEventOnce
      rw [hr]
    have hwrap := withRetryM_first_ok 1 (patchEventOnce eid p su) 2 0 none s _ _ honce
    refine ⟨s', ?_, he, htt, hcount⟩
    simp only [runOp, patch_event, retryPolicy]
    exact hwrap
  | sendMail toAddrs subj bh atts =>
    obtain ⟨res, s', hr, he, _, _, htt, hcount⟩ :=
      requestM_good "POST" (sendMailUrl s.cfg) none
        (some (sendMailPayload toAddrs subj bh atts)) s henv
    have honce : sendMailOnce toAddrs subj bh atts s = (Except.ok (), s') := by
      unfold sendMailOnce
      rw [hr]
    have hwrap := withRetryM_first_ok 1 (sendMailOnce toAddrs subj bh atts) 2 0 none s _ _ honce
    refine ⟨s', ?_, he, htt, hcount⟩
    simp only [runOp, send_mail, retryPolicy]
    exact hwrap

/-- On a good network a sequence of operation calls succeeds and issues at
most one token request beyond what a truthy cache already avoids. -/
theorem runOps_good (ops : List OpCall) : ∀ s : GraphState,
    EnvNoFailureTruthy s.env →
    ∃ s', runOps ops s = (Except.ok (), s') ∧ s'.env = s.env ∧
      (tokTruthy s = true → tokTruthy s' = true) ∧
      tokenRequestCount s'.trace
        ≤ tokenRequestCount s.trace + (if tokTruthy s then 0 else 1) := by
  induction ops with
  | nil =>
    intro s _
    exact ⟨s, rfl, rfl, fun h => h, by split <;> omega⟩
  | cons c rest ih =>
    intro s henv
    obtain ⟨s1, h1, he1, htt1, hc1⟩ := runOp_good c s henv
    have henv1 : EnvNoFailureTruthy s1.env := by rw [he1]; exact henv
    obtain ⟨s2, h2, he2, htt2, hc2⟩ := ih s1 henv1
    refine ⟨s2, ?_, by rw [he2, he1], fun _ => htt2 htt1, ?_⟩
    · unfold runOps
      rw [h1]
      exact h2
    · rw [htt1] at hc2
      simp at hc2
      calc tokenRequestCount s2.trace ≤ tokenRequestCount s1.trace := hc2
        _ = tokenRequestCount s.trace + (if tokTruthy s then 0 else 1) := hc1

/-- Claim C4 amended: for every client instance and every sequence of
operation calls on a network where no failure occurs and every token
response carries a truthy (non-empty) access_token, the whole run succeeds
and the token request is issued at most once: the first call fetches and
caches it and later calls take the cache hit.  (As stated the claim is
false when a no-failure fetch yields an empty-string token — see the
counterexample — because the cache check tests truthiness, claim C10.) -/
theorem token_fetched_at_most_once (cfg : GraphConfig) (env : Env) (ops : List OpCall)
    (henv : EnvNoFailureTruthy env) :
    (runOps ops (initState cfg env)).1 = Except.ok () ∧
    tokenRequestCount ((runOps ops (initState cfg env)).2).trace ≤ 1 := by
  obtain ⟨s', h, _, _, hcount⟩ := runOps_good ops (initState cfg env) henv
  rw [h]
  refine ⟨rfl, ?_⟩
  simpa [initState, tokenRequestCount, tokTruthy] using hcount

/-- A network where every call succeeds and the token is "tok". -/
def okEnv : Env := fun _ req =>
  if isTokenRequest req then
    { status := 200, content := some (Json.obj [("access_token", Json.str "tok")]) }
  else
    { status := 200, content := none }

/-- `okEnv` is a no-failure network with truthy tokens. -/
theorem okEnv_good : EnvNoFailureTruthy okEnv := by
  intro n req
  by_cases h : isTokenRequest req
  · refine ⟨by simp [okEnv, h], fun _ => ⟨Json.str "tok", ?_, rfl⟩⟩
    simp [okEnv, h, Json.lookup, lookupField]
  · exact ⟨by simp [okEnv, h], fun hh => absurd hh (by simp [h])⟩

/-- Witness for the amended C4: two calls against `okEnv` succeed with at
most one token request issued. -/
theorem token_fetched_at_most_once_witness :
    (runOps [OpCall.createEvent (Json.obj [("subject", Json.str "standup")]) "all",
             OpCall.sendMail ["a@x.com", "b@x.com"] "Subj" "<p>Hi</p>" none]
        (initState demoCfg okEnv)).1 = Except.ok () ∧
    tokenRequestCount ((runOps
        [OpCall.createEvent (Json.obj [("subject", Json.str "standup")]) "all",
         OpCall.sendMail ["a@x.com", "b@x.com"] "Subj" "<p>Hi</p>" none]
        (initState demoCfg okEnv)).2).trace ≤ 1 :=
  token_fetched_at_most_once demoCfg okEnv
    [OpCall.createEvent (Json.obj [("subject", Json.str "standup")]) "all",
     OpCall.sendMail ["a@x.com", "b@x.com"] "Subj" "<p>Hi</p>" none] okEnv_good

/-- A network where every call succeeds *and no failure ever occurs* but
the issued access_token is the empty string. -/
def emptyTokenEnv : Env := fun _ req =>
  if isTokenRequest req then
    { status := 200, content := some (Json.obj [("access_token", Json.str "")]) }
  else
    { status := 200, content := none }

/-- Counterexample to claim C4 as stated: against `emptyTokenEnv` no
failure occurs (`EnvNoFailure` holds and the two-call run returns
successfully), yet two operation calls issue two token requests — the
second call does not take the cache hit, because the cached empty string
is falsy. -/
theorem token_refetched_without_failure_cex :
    EnvNoFailure emptyTokenEnv ∧
    (runOps [OpCall.createEvent (Json.obj []) "all", OpCall.createEvent (Json.obj []) "all"]
        (initState demoCfg emptyTokenEnv)).1 = Except.ok () ∧
    tokenRequestCount ((runOps
        [OpCall.createEvent (Json.obj []) "all", OpCall.createEvent (Json.obj []) "all"]
        (initState demoCfg emptyTokenEnv)).2).trace = 2 := by
  refine ⟨?_, rfl, rfl⟩
  intro n req
  by_cases h : isTokenRequest req
  · refine ⟨by simp [emptyTokenEnv, h], fun _ => ⟨Json.str "", ?_⟩⟩
    simp [emptyTokenEnv, h, Json.lookup, lookupField]
  · exact ⟨by simp [emptyTokenEnv, h], fun hh => absurd hh (by simp [h])⟩

/-!
## Claims C5, C6, C7: the three operations' requests and results
-/

/-- Claim C5 amended: per attempt, create_event issues exactly one POST to
`{base_url}/users/{mailbox}/events` with query parameter `sendUpdates`
(default "all" in the source), sends the caller-supplied payload verbatim
as the JSON body (preceded by at most one token fetch), and returns
`body or {}`: the decoded response body when truthy, and the empty mapping
when the response had no body or its decoded body was falsy. -/
theorem create_event_request_and_return (p : Json) (su : String) (s : GraphState)
    (r : Json) (s' : GraphState)
    (h : createEventOnce p su s = (Except.ok r, s')) :
    ∃ pre tok, (pre = [] ∨ pre = [mkTokenRequest s.cfg]) ∧
      s'.trace = s.trace ++ pre ++
        [mkApiRequest "POST" (eventsUrl s.cfg) (some [("sendUpdates", su)]) (some p) tok] ∧
      r = bodyOrEmpty ((s.env (s.reqCount + pre.length)
        (mkApiRequest "POST" (eventsUrl s.cfg) (some [("sendUpdates", su)])
          (some p) tok)).content) := by
  unfold createEventOnce at h
  rcases hr : requestM "POST" (eventsUrl s.cfg) (some [("sendUpdates", su)]) (some p) s
    with ⟨res, s1⟩
  rw [hr] at h
  cases res with
  | error e => exact absurd h (by simp [Prod.ext_iff])
  | ok pr =>
    rcases pr with ⟨st, body⟩
    injection h with h1 h2
    injection h1 with h1
    obtain ⟨pre, tok, hpre, htr, _, _, _, _, _, hres⟩ :=
      requestM_ok_inversion _ _ _ _ _ _ _ hr
    refine ⟨pre, tok, hpre, by rw [← h2]; exact htr, ?_⟩
    rw [← h1]
    have hbody := congrArg Prod.snd hres
    simp only [] at hbody
    rw [hbody]

/-- Witness for the amended C5: one create_event attempt against `okEnv`
fetches the token, issues the one POST, and returns the empty mapping for
the bodiless 200 response. -/
theorem create_event_request_and_return_witness :
    ∃ pre tok, (pre = [] ∨ pre = [mkTokenRequest demoCfg]) ∧
      ((createEventOnce (Json.obj [("subject", Json.str "standup")]) "all"
          (initState demoCfg okEnv)).2).trace
        = [] ++ pre ++ [mkApiRequest "POST" (eventsUrl demoCfg)
            (some [("sendUpdates", "all")])
            (some (Json.obj [("subject", Json.str "standup")])) tok] ∧
      Json.obj [] = bodyOrEmpty ((okEnv (0 + pre.length)
        (mkApiRequest "POST" (eventsUrl demoCfg) (some [("sendUpdates", "all")])
          (some (Json.obj [("subject", Json.str "standup")])) tok)).content) :=
  create_event_request_and_return (Json.obj [("subject", Json.str "standup")]) "all"
    (initState demoCfg okEnv) (Json.obj [])
    ((createEventOnce (Json.obj [("subject", Json.str "standup")]) "all"
        (initState demoCfg okEnv)).2) rfl

/-- A network whose API responses have a non-empty body decoding to the
empty array (a falsy JSON value). -/
def falsyBodyEnv : Env := fun _ req =>
  if isTokenRequest req then
    { status := 200, content := some (Json.obj [("access_token", Json.str "tok")]) }
  else
    { status := 200, content := some (Json.arr []) }

/-- Counterexample to claim C5 as stated: against `falsyBodyEnv` the POST's
response has a body (decoding to the empty array), yet create_event
returns the empty mapping — so the decoded body is not returned unchanged,
and the empty mapping is not returned exactly when the response had no
body. -/
theorem create_event_falsy_body_cex :
    (create_event (Json.obj []) "all" (initState demoCfg falsyBodyEnv)).1
      = Except.ok (Json.obj []) ∧
    (falsyBodyEnv 1 (mkApiRequest "POST" (eventsUrl demoCfg)
        (some [("sendUpdates", "all")]) (some (Json.obj [])) (Json.str "tok"))).content
      = some (Json.arr []) ∧
    Json.obj [] ≠ Json.arr [] ∧ some (Json.arr []) ≠ (none : Option Json) :=
  ⟨rfl, rfl, fun hcontra => Json.noConfusion hcontra,
   fun hcontra => Option.noConfusion hcontra⟩

/-- Claim C7: per attempt, patch_event issues a PATCH to
`{base_url}/users/{mailbox}/events/{event_id}` with the `sendUpdates`
query parameter and the patch payload as JSON body (preceded by at most
one token fetch), and returns no value: the response is discarded, so the
caller cannot inspect the update result. -/
theorem patch_event_request_and_discard (eid : String) (p : Json) (su : String)
    (s : GraphState) (r : Unit) (s' : GraphState)
    (h : patchEventOnce eid p su s = (Except.ok r, s')) :
    r = () ∧
    ∃ pre tok, (pre = [] ∨ pre = [mkTokenRequest s.cfg]) ∧
      s'.trace = s.trace ++ pre ++
        [mkApiRequest "PATCH" (eventUrl s.cfg eid) (some [("sendUpdates", su)])
          (some p) tok] := by
  refine ⟨rfl, ?_⟩
  unfold patchEventOnce at h
  rcases hr : requestM "PATCH" (eventUrl s.cfg eid) (some [("sendUpdates", su)]) (some p) s
    with ⟨res, s1⟩
  rw [hr] at h
  cases res with
  | error e => exact absurd h (by simp [Prod.ext_iff])
  | ok pr =>
    injection h with h1 h2
    obtain ⟨pre, tok, hpre, htr, _, _, _, _, _, _⟩ :=
      requestM_ok_inversion _ _ _ _ _ _ _ hr
    exact ⟨pre, tok, hpre, by rw [← h2]; exact htr⟩

/-- Witness for C7: one patch_event attempt against `okEnv` issues the one
PATCH with the sendUpdates parameter, after fetching the token. -/
theorem patch_event_request_and_discard_witness :
    () = () ∧
    ∃ pre tok, (pre = [] ∨ pre = [mkTokenRequest demoCfg]) ∧
      ((patchEventOnce "evt1" (Json.obj [("subject", Json.str "moved")]) "all"
          (initState demoCfg okEnv)).2).trace
        = [] ++ pre ++ [mkApiRequest "PATCH" (eventUrl demoCfg "evt1")
            (some [("sendUpdates", "all")])
            (some (Json.obj [("subject", Json.str "moved")])) tok] :=
  patch_event_request_and_discard "evt1" (Json.obj [("subject", Json.str "moved")]) "all"
    (initState demoCfg okEnv) ()
    ((patchEventOnce "evt1" (Json.obj [("subject", Json.str "moved")]) "all"
        (initState demoCfg okEnv)).2) rfl

/-- Claim C6: send_mail posts (with no query parameters) an envelope whose
message.toRecipients has exactly one nested address object per input
address, in input order; the attachments key is absent when no attachments
are supplied or the supplied list is empty, and holds the supplied list
verbatim when it is non-empty; and the envelope sets saveToSentItems to
true. -/
theorem send_mail_body_shape (toAddrs : List String) (subj bh : String)
    (atts : Option (List Json)) (s : GraphState) (r : Unit) (s' : GraphState)
    (h : sendMailOnce toAddrs subj bh atts s = (Except.ok r, s')) :
    (∃ pre tok, (pre = [] ∨ pre = [mkTokenRequest s.cfg]) ∧
      s'.trace = s.trace ++ pre ++ [mkApiRequest "POST" (sendMailUrl s.cfg) none
        (some (sendMailPayload toAddrs subj bh atts)) tok]) ∧
    (sendMailMessage toAddrs subj bh atts).lookup "toRecipients"
      = some (Json.arr (toAddrs.map recipientObj)) ∧
    (toAddrs.map recipientObj).length = toAddrs.length ∧
    (sendMailMessage toAddrs subj bh atts).lookup "attachments"
      = (match atts with
         | some (a :: rest) => some (Json.arr (a :: rest))
         | _ => none) ∧
    (sendMailPayload toAddrs subj bh atts).lookup "saveToSentItems"
      = some (Json.bool true) := by
  refine ⟨?_, ?_, List.length_map _ _, ?_, ?_⟩
  · unfold sendMailOnce at h
    rcases hr : requestM "POST" (sendMailUrl s.cfg) none
        (some (sendMailPayload toAddrs subj bh atts)) s with ⟨res, s1⟩
    rw [hr] at h
    cases res with
    | error e => exact absurd h (by simp [Prod.ext_iff])
    | ok pr =>
      injection h with h1 h2
      obtain ⟨pre, tok, hpre, htr, _, _, _, _, _, _⟩ :=
        requestM_ok_inversion _ _ _ _ _ _ _ hr
      exact ⟨pre, tok, hpre, by rw [← h2]; exact htr⟩
  · rcases atts with _ | ⟨_ | ⟨a, rest⟩⟩ <;>
      simp [sendMailMessage, Json.lookup, lookupField]
  · rcases atts with _ | ⟨_ | ⟨a, rest⟩⟩ <;>
      simp [sendMailMessage, Json.lookup, lookupField]
  · rcases atts with _ | ⟨_ | ⟨a, rest⟩⟩ <;>
      simp [sendMailPayload, Json.lookup, lookupField]

/-- Witness for C6: a concrete send_mail attempt with two recipients and
one attachment against `okEnv`. -/
theorem send_mail_body_shape_witness :
    (∃ pre tok, (pre = [] ∨ pre = [mkTokenRequest demoCfg]) ∧
      ((sendMailOnce ["a@x.com", "b@x.com"] "Subj" "<p>Hi</p>"
          (some [Json.obj [("name", Json.str "f.txt")]]) (initState demoCfg okEnv)).2).trace
        = [] ++ pre ++ [mkApiRequest "POST" (sendMailUrl demoCfg) none
        (some (sendMailPayload ["a@x.com", "b@x.com"] "Subj" "<p>Hi</p>"
          (some [Json.obj [("name", Json.str "f.txt")]]))) tok]) ∧
    (sendMailMessage ["a@x.com", "b@x.com"] "Subj" "<p>Hi</p>"
        (some [Json.obj [("name", Json.str "f.txt")]])).lookup "toRecipients"
      = some (Json.arr (["a@x.com", "b@x.com"].map recipientObj)) ∧
    ((["a@x.com", "b@x.com"] : List String).map recipientObj).length
      = (["a@x.com", "b@x.com"] : List String).length ∧
    (sendMailMessage ["a@x.com", "b@x.com"] "Subj" "<p>Hi</p>"
        (some [Json.obj [("name", Json.str "f.txt")]])).lookup "attachments"
      = (match some [Json.obj [("name", Json.str "f.txt")]] with
         | some (a :: rest) => some (Json.arr (a :: rest))
         | _ => none) ∧
    (sendMailPayload ["a@x.com", "b@x.com"] "Subj" "<p>Hi</p>"
        (some [Json.obj [("name", Json.str "f.txt")]])).lookup "saveToSentItems"
      = some (Json.bool true) :=
  send_mail_body_shape ["a@x.com", "b@x.com"] "Subj" "<p>Hi</p>"
    (some [Json.obj [("name", Json.str "f.txt")]]) (initState demoCfg okEnv) ()
    ((sendMailOnce ["a@x.com", "b@x.com"] "Subj" "<p>Hi</p>"
        (some [Json.obj [("name", Json.str "f.txt")]]) (initState demoCfg okEnv)).2) rfl
